import Mathlib

/-!
Shallow embedding of `src/database_tool.py` (module `database_tool`).

The program is a thin wrapper around an ODBC database client: a free
function `find_driver` and a class `MSSQLDatabaseManager` with methods
`__init__` (modelled as `init`), `run_query`, `save_query_df`, and
`disconnect`.

External effects (logging, SQLAlchemy engine and session calls) are
modelled as an explicit trace of `Event`s returned alongside each
result of each function.  Fallible operations return `Except DBError`; the
points at which the external library may raise are supplied as explicit
outcome parameters (oracles), so that every control-flow path of the
source is a reachable branch of the embedding.
-/

/-- One observable effect of the program: either a log line written by
`logger.info` / `logger.error`, or a call into the database library.
`sessionCommit` is `self.session.commit()` on the long-lived session
opened at construction; `txnBegin`/`txnCommit`/`txnRollback`/`txnClose`
are the lifecycle of the fresh per-call transaction obtained from
`self.engine.begin()` in `run_query`. -/
inductive Event where
  | logInfo (msg : String)
  | logError (msg : String)
  | engineCreated
  | sessionOpened
  | connOpened
  | txnBegin
  | execStmt (sql : String)
  | sessionCommit
  | txnCommit
  | txnRollback
  | txnClose
  | connClosed
  | engineDisposed
  deriving DecidableEq, Repr

/-- Is the event a log line (info or error)? -/
def Event.isLog : Event → Bool
  | .logInfo _ => true
  | .logError _ => true
  | _ => false

/-- Is the event an error log line? -/
def Event.isErrorLog : Event → Bool
  | .logError _ => true
  | _ => false

/-- The log lines of a trace, in order. -/
def logLines (tr : List Event) : List Event :=
  tr.filter Event.isLog

/-- The generic error signal of the underlying library, tagged by
originating step (the source raises plain `Exception` everywhere). -/
inductive DBError where
  | driverNotFound
  | connectionError
  | executionError
  | disconnectionError
  deriving DecidableEq, Repr

/-- `Except.isOk`-style discriminator used throughout. -/
def exceptOk : Except DBError α → Bool
  | .ok _ => true
  | .error _ => false

/-- Projection of a successful result. -/
def exceptGet : Except DBError α → Option α
  | .ok a => some a
  | .error _ => none

/-- Boolean test that `needle` occurs contiguously inside `hay`. -/
def listInfixOf (needle : List Char) : List Char → Bool
  | [] => needle.isEmpty
  | c :: t => needle.isPrefixOf (c :: t) || listInfixOf needle t

/-- Python substring test `sub in s`. -/
def strContains (s sub : String) : Bool :=
  listInfixOf sub.toList s.toList

/-- `find_driver(db_system)` from the source, with the external
`pyodbc.drivers()` listing passed in as `installed`.  Returns the chosen
driver (or `none`) together with the log lines written. -/
def find_driver (db_system : String) (installed : List String) :
    Option String × List Event :=
  if db_system ∉ ["SQL Server"] then
    (none, [.logError "Invalid database system. Please provide a valid database system name."])
  else
    let drivers := installed.filter (fun d => strContains d db_system)
    if drivers.isEmpty then (none, [])
    else (drivers.getLast?, [])

/-- Python truthiness-based defaulting `x or y` on optional strings:
`None` and the empty string are falsy, so both fall back to `y`
(`self.user = user or os.environ.get(\x7b...\x7d)` in the source — the
environment lookup itself may yield `None`, hence `y : Option String`). -/
def pyOr (x y : Option String) : Option String :=
  match x with
  | none => y
  | some s => if s = "" then y else some s

/-- Python `str()` rendering of an optional string inside an f-string:
`None` renders as the four characters `None`. -/
def pyStr : Option String → String
  | none => "None"
  | some s => s

/-- Uppercase hexadecimal digit, for percent-encoding. -/
def hexDigit (n : Nat) : Char :=
  if n < 10 then Char.ofNat (48 + n) else Char.ofNat (55 + n)

/-- `urllib.parse.quote_plus` on a single UTF-8 byte: space becomes `+`,
unreserved bytes (ALPHA / DIGIT / `_` `.` `-` `~`) stay themselves,
everything else is percent-encoded. -/
def quotePlusByte (b : Nat) : String :=
  if b = 32 then "+"
  else if (65 ≤ b ∧ b ≤ 90) ∨ (97 ≤ b ∧ b ≤ 122) ∨ (48 ≤ b ∧ b ≤ 57)
      ∨ b = 95 ∨ b = 46 ∨ b = 45 ∨ b = 126 then
    String.singleton (Char.ofNat b)
  else
    "%" ++ String.singleton (hexDigit (b / 16)) ++ String.singleton (hexDigit (b % 16))

/-- `urllib.parse.quote_plus` over the UTF-8 bytes of a string. -/
def quotePlus (s : String) : String :=
  String.join (s.toUTF8.toList.map (fun b => quotePlusByte b.toNat))

/-- The connection descriptor assembled by `__init__` before URL-escaping:
the f-string
`DRIVER=...;SERVER=host,port;DATABASE=...;[UID=...;PWD=...;]Trusted_Connection=yes|no;`
with the trusted branch omitting the credential fields. -/
def connDescriptor (driver server : String) (port : Nat) (database : String)
    (user password : Option String) (trusted : Bool) : String :=
  if trusted then
    "DRIVER=" ++ driver ++ ";" ++
    "SERVER=" ++ server ++ "," ++ toString port ++ ";" ++
    "DATABASE=" ++ database ++ ";" ++
    "Trusted_Connection=yes;"
  else
    "DRIVER=" ++ driver ++ ";" ++
    "SERVER=" ++ server ++ "," ++ toString port ++ ";" ++
    "DATABASE=" ++ database ++ ";" ++
    "UID=" ++ pyStr user ++ ";" ++
    "PWD=" ++ pyStr password ++ ";" ++
    "Trusted_Connection=no;"

/-- The same descriptor viewed as its list of `KEY=value;` fields, in
source order. -/
def connFields (driver server : String) (port : Nat) (database : String)
    (user password : Option String) (trusted : Bool) : List (String × String) :=
  if trusted then
    [("DRIVER", driver),
     ("SERVER", server ++ "," ++ toString port),
     ("DATABASE", database),
     ("Trusted_Connection", "yes")]
  else
    [("DRIVER", driver),
     ("SERVER", server ++ "," ++ toString port),
     ("DATABASE", database),
     ("UID", pyStr user),
     ("PWD", pyStr password),
     ("Trusted_Connection", "no")]

/-- Renders a field list back to the flat `KEY=value;...` string. -/
def renderFields : List (String × String) → String
  | [] => ""
  | kv :: rest => kv.1 ++ "=" ++ kv.2 ++ ";" ++ renderFields rest

/-- Default for the `server` parameter of `__init__`. -/
def defaultServer : String := "db.perseus.com.br"

/-- Default for the `port` parameter of `__init__`. -/
def defaultPort : Nat := 44324

/-- The attribute state of an `MSSQLDatabaseManager` instance after a
successful `__init__`.  The engine / session / connection objects are
modelled by liveness flags (`engineDisposed`, `sessionClosed`,
`connClosed`), all `false` right after construction. -/
structure Manager where
  driver : String
  server : String
  port : Nat
  database : String
  user : Option String
  password : Option String
  use_trusted_connection : Bool
  params : String
  engineDisposed : Bool
  sessionClosed : Bool
  connClosed : Bool
  deriving DecidableEq, Repr

/-- Whether the `create_engine` / `sessionmaker` / `engine.connect()`
block of `__init__` succeeds (external outcome). -/
inductive ConnectOutcome where
  | ok
  | fail
  deriving DecidableEq, Repr

/-- `MSSQLDatabaseManager.__init__`.  `installed` is the external
`pyodbc.drivers()` listing used by `find_driver`; `envSQLUID` and
`envSQLPWD` are `os.environ.get` for `SQLUID` / `SQLPWD`; `connect` is
the outcome of the engine/connection establishment. -/
def init (database server : String) (port : Nat)
    (user password : Option String) (use_trusted_connection : Bool)
    (installed : List String) (envSQLUID envSQLPWD : Option String)
    (connect : ConnectOutcome) : Except DBError Manager × List Event :=
  match find_driver "SQL Server" installed with
  | (none, logs) =>
      (.error .driverNotFound,
       logs ++ [.logError "ODBC Driver for SQL Server not found. Please install the driver and try again."])
  | (some drv, logs) =>
      let user' := pyOr user envSQLUID
      let password' := pyOr password envSQLPWD
      let params := quotePlus
        (connDescriptor drv server port database user' password' use_trusted_connection)
      match connect with
      | .fail =>
          (.error .connectionError, logs ++ [.logError "Connection error: engine or connection establishment failed"])
      | .ok =>
          (.ok { driver := drv, server := server, port := port, database := database,
                 user := user', password := password',
                 use_trusted_connection := use_trusted_connection, params := params,
                 engineDisposed := false, sessionClosed := false, connClosed := false },
           logs ++ [.engineCreated, .sessionOpened, .connOpened, .logInfo "DB Connected!"])

/-- Where, if anywhere, the external library raises during a
`run_query` call. -/
inductive QueryOutcome where
  | ok
  | failBegin
  | failExec
  | failSessionCommit
  | failTxnCommit
  deriving DecidableEq, Repr

/-- `MSSQLDatabaseManager.run_query(query, commit)`.  The body runs the
statement inside `with self.engine.begin() as conn:` (fresh per-call
transaction: committed and closed on normal exit, rolled back and closed
when the block raises); if `commit` is set, `self.session.commit()` is
invoked on the construction-time session.  The attempt log line precedes
the `try`; the error log line is written by the `except` handler after
the context manager has unwound.  Returns the result handle (modelled by
the executed SQL text) or the propagated error, with the trace. -/
def run_query (query : String) (commit : Bool) (o : QueryOutcome) :
    Except DBError String × List Event :=
  let attempt := Event.logInfo ("Executing query: " ++ query)
  match o with
  | .failBegin =>
      (.error .executionError,
       [attempt, .logError "Query execution error: begin failed"])
  | .failExec =>
      (.error .executionError,
       [attempt, .txnBegin, .txnRollback, .txnClose,
        .logError "Query execution error: execute failed"])
  | .failSessionCommit =>
      if commit then
        (.error .executionError,
         [attempt, .txnBegin, .execStmt query, .txnRollback, .txnClose,
          .logError "Query execution error: session commit failed"])
      else
        (.ok query,
         [attempt, .txnBegin, .execStmt query,
          .logInfo "Query executed successfully!", .txnCommit, .txnClose])
  | .failTxnCommit =>
      (.error .executionError,
       [attempt, .txnBegin, .execStmt query]
         ++ (if commit then [.sessionCommit] else [])
         ++ [.logInfo "Query executed successfully!", .txnClose,
             .logError "Query execution error: transaction commit failed"])
  | .ok =>
      (.ok query,
       [attempt, .txnBegin, .execStmt query]
         ++ (if commit then [.sessionCommit] else [])
         ++ [.logInfo "Query executed successfully!", .txnCommit, .txnClose])

/-- A materialized tabular result (rows of fields), standing in for the
pandas DataFrame. -/
structure DataFrame where
  rows : List (List String)
  deriving DecidableEq, Repr

/-- `MSSQLDatabaseManager.save_query_df(query)`: a direct call to
`pd.read_sql_query(query, self.engine)` whose outcome `o` (the
materialized frame, or the raised error) is returned as-is.  The body
contains no logging and no transaction or commit handling. -/
def save_query_df (_query : String) (o : Except DBError DataFrame) :
    Except DBError DataFrame × List Event :=
  (o, [])

/-- Where, if anywhere, `disconnect` fails. -/
inductive DisconnectOutcome where
  | ok
  | failClose
  | failDispose
  deriving DecidableEq, Repr

/-- `MSSQLDatabaseManager.disconnect()`: `self.conn.close()` then
`self.engine.dispose()`, logging success, or logging and re-raising the
error.  Returns the mutated instance state, the call outcome, and the
trace. -/
def disconnect (m : Manager) (o : DisconnectOutcome) :
    Manager × Except DBError Unit × List Event :=
  match o with
  | .ok =>
      ({ m with connClosed := true, engineDisposed := true },
       .ok (), [.connClosed, .engineDisposed, .logInfo "DB Disconnected!"])
  | .failClose =>
      (m, .error .disconnectionError,
       [.logError "Disconnection error: close failed"])
  | .failDispose =>
      ({ m with connClosed := true }, .error .disconnectionError,
       [.connClosed, .logError "Disconnection error: dispose failed"])

/-! ## Helper lemmas -/

/-- When the family is the supported literal, `find_driver` writes no log
lines (the error line belongs to the invalid-family branch only). -/
theorem find_driver_valid_no_logs (installed : List String) :
    (find_driver "SQL Server" installed).2 = [] := by
  unfold find_driver
  simp only [List.mem_singleton]
  split
  · simp at *
  · split <;> rfl

/-! ## Claim theorems -/

/-- C4: for family "SQL Server", driver discovery keeps exactly the
installed names containing the family substring and returns the last
element of the filtered list (absent when it is empty); on the listing
`[ODBC Driver 13 ..., ODBC Driver 17 ...]` it returns the 17 driver. -/
theorem find_driver_returns_last_match (installed : List String) :
    (find_driver "SQL Server" installed).1
      = (installed.filter (fun d => strContains d "SQL Server")).getLast?
    ∧ (find_driver "SQL Server"
        ["ODBC Driver 13 for SQL Server", "ODBC Driver 17 for SQL Server"]).1
      = some "ODBC Driver 17 for SQL Server" := by
  constructor
  · unfold find_driver
    simp only [List.mem_singleton]
    split
    · simp at *
    · split
      · rename_i hEmpty
        simp only [List.isEmpty_iff] at hEmpty
        rw [hEmpty]
        rfl
      · rfl
  · decide

/-- C5: for any family other than the literal "SQL Server",
`find_driver` returns absent together with exactly one log line, which
is an error line, regardless of the installed drivers; being a total
function of the embedding, it raises nothing. -/
theorem find_driver_invalid_family (fam : String) (installed : List String)
    (h : fam ≠ "SQL Server") :
    find_driver fam installed
      = (none,
         [Event.logError "Invalid database system. Please provide a valid database system name."])
    ∧ (logLines (find_driver fam installed).2).length = 1
    ∧ ((find_driver fam installed).2.filter Event.isErrorLog).length = 1 := by
  have hfd : find_driver fam installed
      = (none,
         [Event.logError "Invalid database system. Please provide a valid database system name."]) := by
    unfold find_driver
    simp [h]
  refine ⟨hfd, ?_, ?_⟩ <;> rw [hfd] <;> rfl

/-- Witness for C5 at the example family "MySQL" from the spec. -/
theorem find_driver_invalid_family_witness :
    ("MySQL" : String) ≠ "SQL Server"
    ∧ (find_driver "MySQL" ["ODBC Driver 17 for SQL Server"]
        = (none,
           [Event.logError "Invalid database system. Please provide a valid database system name."])
       ∧ (logLines (find_driver "MySQL" ["ODBC Driver 17 for SQL Server"]).2).length = 1
       ∧ ((find_driver "MySQL" ["ODBC Driver 17 for SQL Server"]).2.filter Event.isErrorLog).length = 1) :=
  ⟨by decide, find_driver_invalid_family "MySQL" ["ODBC Driver 17 for SQL Server"] (by decide)⟩

/-- C1: with commit=false, no session-level commit ever happens, on any
outcome; with commit=true on the successful path the construction-time
session is committed, and the trace differs from the commit=false trace
only by that `sessionCommit` — in particular the per-call transaction
commit (`txnCommit`) is identical in both, so the commit flag acts on
the original session, not on the transaction that ran the statement. -/
theorem run_query_commit_targets_original_session (q : String) (o : QueryOutcome) :
    Event.sessionCommit ∉ (run_query q false o).2
    ∧ Event.sessionCommit ∈ (run_query q true .ok).2
    ∧ (run_query q true .ok).2
        = [Event.logInfo ("Executing query: " ++ q), Event.txnBegin, Event.execStmt q,
           Event.sessionCommit,
           Event.logInfo "Query executed successfully!", Event.txnCommit, Event.txnClose]
    ∧ (run_query q false .ok).2
        = [Event.logInfo ("Executing query: " ++ q), Event.txnBegin, Event.execStmt q,
           Event.logInfo "Query executed successfully!", Event.txnCommit, Event.txnClose] := by
  refine ⟨?_, ?_, ?_, ?_⟩
  · cases o <;> simp [run_query]
  · simp [run_query]
  · simp [run_query]
  · simp [run_query]

/-- C2: every `run_query` call that returns without raising ran the
statement inside a fresh per-call transaction that was begun, committed
and closed before the return, whatever the commit flag — so even with
commit=false the effects of the statement are committed by the per-call
transaction. -/
theorem run_query_per_call_txn_commits (q : String) (c : Bool) (o : QueryOutcome)
    (h : exceptOk (run_query q c o).1 = true) :
    (run_query q c o).2
      = [Event.logInfo ("Executing query: " ++ q), Event.txnBegin, Event.execStmt q]
        ++ (if c then [Event.sessionCommit] else [])
        ++ [Event.logInfo "Query executed successfully!", Event.txnCommit, Event.txnClose] := by
  cases o <;> cases c <;> simp [run_query, exceptOk] at h ⊢

/-- Witness for C2 at a concrete successful call. -/
theorem run_query_per_call_txn_commits_witness :
    exceptOk (run_query "SELECT 1" false .ok).1 = true
    ∧ (run_query "SELECT 1" false .ok).2
      = [Event.logInfo ("Executing query: " ++ "SELECT 1"), Event.txnBegin, Event.execStmt "SELECT 1"]
        ++ (if false then [Event.sessionCommit] else [])
        ++ [Event.logInfo "Query executed successfully!", Event.txnCommit, Event.txnClose] :=
  ⟨by decide, run_query_per_call_txn_commits "SELECT 1" false .ok (by decide)⟩

/-- C7 counterexample: a call failing at statement execution returns an
error having written only two log lines — attempt and error — and the
success line is absent, contradicting the claim that the attempt and
success lines are written regardless of outcome (with errors adding a
third line). -/
theorem run_query_failed_call_lacks_success_line :
    exceptOk (run_query "SELECT 1" false .failExec).1 = false
    ∧ Event.logInfo "Query executed successfully!" ∉ (run_query "SELECT 1" false .failExec).2
    ∧ (logLines (run_query "SELECT 1" false .failExec).2).length = 2 := by
  decide

/-- C7 amended: every call writes the attempt line first; a call that
returns successfully writes exactly the attempt and success lines; a
failing call writes an error line as its final log line — two lines in
total when the failure precedes the success log (e.g. at execution),
three only when the failure comes after it (at the per-call transaction
commit). -/
theorem run_query_log_line_discipline (q : String) (c : Bool) (o : QueryOutcome) :
    (logLines (run_query q c o).2).head?
      = some (Event.logInfo ("Executing query: " ++ q))
    ∧ (exceptOk (run_query q c o).1 = true →
        logLines (run_query q c o).2
          = [Event.logInfo ("Executing query: " ++ q),
             Event.logInfo "Query executed successfully!"])
    ∧ (exceptOk (run_query q c o).1 = false →
        ∃ m, (logLines (run_query q c o).2).getLast? = some (Event.logError m))
    ∧ logLines (run_query q c .failExec).2
        = [Event.logInfo ("Executing query: " ++ q),
           Event.logError "Query execution error: execute failed"]
    ∧ logLines (run_query q c .failTxnCommit).2
        = [Event.logInfo ("Executing query: " ++ q),
           Event.logInfo "Query executed successfully!",
           Event.logError "Query execution error: transaction commit failed"] := by
  refine ⟨?_, ?_, ?_, ?_, ?_⟩
  · cases o <;> cases c <;> simp [run_query, logLines, Event.isLog]
  · cases o <;> cases c <;> simp [run_query, logLines, Event.isLog, exceptOk]
  · cases o <;> cases c <;> simp [run_query, logLines, Event.isLog, exceptOk]
  · cases c <;> simp [run_query, logLines, Event.isLog]
  · cases c <;> simp [run_query, logLines, Event.isLog]

/-- Witness for C7-amended at a concrete successful call and a concrete
failing call. -/
theorem run_query_log_line_discipline_witness :
    logLines (run_query "SELECT 1" false .ok).2
      = [Event.logInfo ("Executing query: " ++ "SELECT 1"),
         Event.logInfo "Query executed successfully!"]
    ∧ (∃ m, (logLines (run_query "SELECT 1" false .failExec).2).getLast?
          = some (Event.logError m)) :=
  ⟨(run_query_log_line_discipline "SELECT 1" false .ok).2.1 (by decide),
   (run_query_log_line_discipline "SELECT 1" false .failExec).2.2.1 (by decide)⟩

/-- C8: `save_query_df` hands back the outcome of the underlying
execution unchanged — an error propagates unmodified — and its trace
contains no log line at all, whereas a failing `run_query` always logs
an error line before re-raising. -/
theorem save_query_df_unlogged_propagation (q : String) (e : DBError)
    (c : Bool) (o : QueryOutcome) :
    save_query_df q (.error e) = (.error e, [])
    ∧ (∀ r : Except DBError DataFrame,
        (save_query_df q r).1 = r ∧ logLines (save_query_df q r).2 = [])
    ∧ (exceptOk (run_query q c o).1 = false →
        ∃ m, Event.logError m ∈ (run_query q c o).2) := by
  refine ⟨rfl, fun r => ⟨rfl, rfl⟩, ?_⟩
  cases o <;> cases c <;> simp [run_query, exceptOk]

/-- Witness for C8 at a concrete query and failing outcome. -/
theorem save_query_df_unlogged_propagation_witness :
    save_query_df "SELECT 1" (.error .executionError) = (.error .executionError, [])
    ∧ (∃ m, Event.logError m ∈ (run_query "SELECT 1" false .failExec).2) :=
  ⟨(save_query_df_unlogged_propagation "SELECT 1" .executionError false .failExec).1,
   (save_query_df_unlogged_propagation "SELECT 1" .executionError false .failExec).2.2 (by decide)⟩

/-- C3: the assembled connection descriptor is exactly the rendering of
its field list; with the trusted flag the fields carry the
`Trusted_Connection=yes` marker and no `UID`/`PWD` key, and without it
they carry both credential fields and the `Trusted_Connection=no`
marker. -/
theorem conn_descriptor_fields (driver server : String) (port : Nat)
    (database : String) (user password : Option String) :
    connDescriptor driver server port database user password true
      = renderFields (connFields driver server port database user password true)
    ∧ connDescriptor driver server port database user password false
      = renderFields (connFields driver server port database user password false)
    ∧ ("Trusted_Connection", "yes")
        ∈ connFields driver server port database user password true
    ∧ (connFields driver server port database user password true).all
        (fun kv => !(kv.1 == "UID") && !(kv.1 == "PWD")) = true
    ∧ ("UID", pyStr user) ∈ connFields driver server port database user password false
    ∧ ("PWD", pyStr password) ∈ connFields driver server port database user password false
    ∧ ("Trusted_Connection", "no")
        ∈ connFields driver server port database user password false := by
  refine ⟨?_, ?_, by simp [connFields], rfl, by simp [connFields],
          by simp [connFields], by simp [connFields]⟩
  · apply String.ext
    simp only [connDescriptor, connFields, renderFields, if_true,
      String.data_append, List.append_assoc]
    rfl
  · apply String.ext
    simp only [connDescriptor, connFields, renderFields, Bool.false_eq_true,
      if_false, String.data_append, List.append_assoc]
    rfl

/-- `find_driver` on a concrete one-driver listing. -/
theorem find_driver_one_match :
    find_driver "SQL Server" ["ODBC Driver 17 for SQL Server"]
      = (some "ODBC Driver 17 for SQL Server", []) := by
  decide

/-- C9: the credential fallback is Python truthiness, not a None test:
a user or password supplied as the empty string is replaced by the
SQLUID / SQLPWD environment value, exactly as an omitted one is, and
the constructed instance stores the environment values. -/
theorem init_env_fallback_on_empty_credentials (db server : String) (port : Nat)
    (envU envP : Option String) (tr : Bool) :
    pyOr (some "") envU = envU
    ∧ pyOr none envU = envU
    ∧ ((exceptGet (init db server port (some "") (some "") tr
          ["ODBC Driver 17 for SQL Server"] envU envP .ok).1).map Manager.user)
        = some envU
    ∧ ((exceptGet (init db server port (some "") (some "") tr
          ["ODBC Driver 17 for SQL Server"] envU envP .ok).1).map Manager.password)
        = some envP := by
  refine ⟨rfl, rfl, ?_, ?_⟩ <;>
    simp [init, find_driver_one_match, pyOr, exceptGet]

/-- C6: when driver discovery comes back absent, construction logs the
driver-not-found error and fails with it at once: the whole call
reduces to the error and that single log line, so no engine, session or
connection event ever enters the trace and no instance state exists. -/
theorem init_driver_not_found_is_fatal (db server : String) (port : Nat)
    (user password : Option String) (tr : Bool) (installed : List String)
    (envU envP : Option String) (connect : ConnectOutcome)
    (h : (find_driver "SQL Server" installed).1 = none) :
    init db server port user password tr installed envU envP connect
      = (.error .driverNotFound,
         [Event.logError "ODBC Driver for SQL Server not found. Please install the driver and try again."])
    ∧ (init db server port user password tr installed envU envP connect).2.all
        (fun e => !(e == Event.engineCreated) && !(e == Event.sessionOpened)
          && !(e == Event.connOpened)) = true := by
  have hfd : find_driver "SQL Server" installed = (none, []) := by
    have h2 := find_driver_valid_no_logs installed
    cases hq : find_driver "SQL Server" installed with
    | mk o l =>
      rw [hq] at h h2
      simp only at h h2
      rw [h, h2]
  constructor
  · simp [init, hfd]
  · simp [init, hfd]

/-- Witness for C6 with an empty driver listing. -/
theorem init_driver_not_found_is_fatal_witness :
    (find_driver "SQL Server" []).1 = none
    ∧ (init "Sales" "h" 1433 none none false [] none none .ok
        = (.error .driverNotFound,
           [Event.logError "ODBC Driver for SQL Server not found. Please install the driver and try again."])
       ∧ (init "Sales" "h" 1433 none none false [] none none .ok).2.all
          (fun e => !(e == Event.engineCreated) && !(e == Event.sessionOpened)
            && !(e == Event.connOpened)) = true) :=
  ⟨by decide, init_driver_not_found_is_fatal "Sales" "h" 1433 none none false [] none none .ok (by decide)⟩

/-- C10: a successful `disconnect` sets exactly the connection-closed
and engine-disposed flags and leaves every other attribute of the
instance as it was; on every outcome the construction-time session is
never closed by `disconnect`. -/
theorem disconnect_closes_conn_disposes_engine_only (m : Manager)
    (o : DisconnectOutcome) :
    (disconnect m .ok).1.connClosed = true
    ∧ (disconnect m .ok).1.engineDisposed = true
    ∧ (disconnect m .ok).1.sessionClosed = m.sessionClosed
    ∧ (disconnect m .ok).1.driver = m.driver
    ∧ (disconnect m .ok).1.server = m.server
    ∧ (disconnect m .ok).1.port = m.port
    ∧ (disconnect m .ok).1.database = m.database
    ∧ (disconnect m .ok).1.user = m.user
    ∧ (disconnect m .ok).1.password = m.password
    ∧ (disconnect m .ok).1.use_trusted_connection = m.use_trusted_connection
    ∧ (disconnect m .ok).1.params = m.params
    ∧ (disconnect m o).1.sessionClosed = m.sessionClosed := by
  refine ⟨rfl, rfl, rfl, rfl, rfl, rfl, rfl, rfl, rfl, rfl, rfl, ?_⟩
  cases o <;> rfl
